import Mathlib

/-!
Shallow embedding of the PyTCP stack core (tcp_session.py, stack_timer.py,
ps_dhcp.py, phrx_arp.py, ph.py) and proofs about the specification claims.

Python integers are unbounded, so sequence numbers are modelled as `Int`
(the source never reduces them modulo 2^32).  Byte buffers are `List Nat`,
threading semaphores are explicit natural-number counters, and Python's
slice semantics (including negative indices) are modelled explicitly.
-/

namespace PyTcp

/-! ## Python slice semantics

`lst[:k]` and `del lst[:k]` for a possibly negative `k`: a negative index
counts from the end of the list, and the result is clamped to `[0, len]`. -/

/-- Effective length of the Python slice `lst[:k]` for a list of length `n`. -/
def py_slice_len (k : Int) (n : Nat) : Nat :=
  if k < 0 then n - (-k).toNat else min k.toNat n

/-- Python `lst[:k]`. -/
def py_first_slice (k : Int) (l : List α) : List α :=
  l.take (py_slice_len k l.length)

/-- Python `del lst[:k]` (the remaining list). -/
def py_del_slice (k : Int) (l : List α) : List α :=
  l.drop (py_slice_len k l.length)

/-- `b2i` models Python's arithmetic on booleans (`True == 1`, `False == 0`). -/
def b2i (b : Bool) : Int := if b then 1 else 0

/-! ## Constants from tcp_session.py -/

def DELAYED_ACK_DELAY : Nat := 200
def TIME_WAIT_DELAY : Nat := 15000
def PACKET_RESEND_DELAY : Nat := 1000
def PACKET_RESEND_COUNT : Nat := 4
def USE_REMOTE_WIN : Bool := true

/-- Modelled from the spec: `stack.py` is not part of the sources; §6 lists
`mtu` as a configuration value.  Only `mtu - 80` is ever used (MSS clamp) and
no claim depends on its numeric value. -/
def stack_mtu : Int := 1500

/-! ## TCP session data model (tcp_session.py) -/

/-- The FSM state strings of `TcpSession.state`. -/
inductive TcpState
  | CLOSED | LISTEN | SYN_SENT | SYN_RCVD | ESTABLISHED
  | FIN_WAIT_1 | FIN_WAIT_2 | CLOSING | CLOSE_WAIT | LAST_ACK | TIME_WAIT
deriving DecidableEq, Repr

/-- An inbound TCP segment as seen by the FSM handlers (the fields of the
parsed packet that tcp_session.py reads). -/
structure TcpPacketIn where
  seq : Int
  ack : Int
  flag_syn : Bool
  flag_ack : Bool
  flag_fin : Bool
  flag_rst : Bool
  raw_data : List Nat
  win : Int
  mss : Int
deriving DecidableEq, Repr

/-- An outbound TCP segment as handed to `stack.packet_handler.phtx_tcp`.
`tcp_ack` is an `Option` because Python passes `self.remote_seq_rcvd`
(possibly `None`) when `flag_ack` is set, and the int `0` otherwise. -/
structure TcpPacketOut where
  tcp_seq : Int
  tcp_ack : Option Int
  tcp_flag_syn : Bool
  tcp_flag_ack : Bool
  tcp_flag_fin : Bool
  tcp_flag_rst : Bool
  tcp_win : Int
  tcp_mss : Option Int
  raw_data : List Nat
deriving DecidableEq, Repr

/-- The mutable fields of a `TcpSession` object.  The two `threading.Semaphore`
objects are modelled by their counters; the two resend counters are Python
attributes created in the state-init blocks and are modelled as plain fields
(0 until first used).  `Option` fields are `None` in Python until set. -/
structure TcpSession where
  state : TcpState
  state_init : Bool
  local_seq_init : Int
  local_seq_sent : Int
  local_seq_ackd : Int
  local_seq_fin : Option Int
  remote_seq_init : Option Int
  remote_seq_rcvd : Option Int
  remote_seq_ackd : Option Int
  tx_buffer : List Nat
  rx_buffer : List Nat
  tx_buffer_seq_mod : Int
  local_win : Int
  local_mss : Int
  remote_win : Option Int
  remote_mss : Option Int
  syn_sent_resend_count : Nat
  syn_rcvd_resend_count : Nat
  event_connect : Nat
  event_rx_buffer : Nat
deriving DecidableEq, Repr

/-- `TcpSession.__init__`: `local_seq_sent = local_seq_ackd = local_seq_init`,
`tx_buffer_seq_mod = local_seq_init + 1`, state set to CLOSED via
`__change_state` (which leaves `state_init = True`), both semaphores at 0. -/
def mk_tcp_session (isn local_win local_mss : Int) : TcpSession where
  state := .CLOSED
  state_init := true
  local_seq_init := isn
  local_seq_sent := isn
  local_seq_ackd := isn
  local_seq_fin := none
  remote_seq_init := none
  remote_seq_rcvd := none
  remote_seq_ackd := none
  tx_buffer := []
  rx_buffer := []
  tx_buffer_seq_mod := isn + 1
  local_win := local_win
  local_mss := local_mss
  remote_win := none
  remote_mss := none
  syn_sent_resend_count := 0
  syn_rcvd_resend_count := 0
  event_connect := 0
  event_rx_buffer := 0

/-- `tx_buffer_seq_sent` property: `local_seq_sent - tx_buffer_seq_mod`. -/
def TcpSession.tx_buffer_seq_sent (s : TcpSession) : Int :=
  s.local_seq_sent - s.tx_buffer_seq_mod

/-- `tx_buffer_seq_ackd` property: `local_seq_ackd - tx_buffer_seq_mod`. -/
def TcpSession.tx_buffer_seq_ackd (s : TcpSession) : Int :=
  s.local_seq_ackd - s.tx_buffer_seq_mod

/-- `__change_state`: set the new state and raise the `state_init` flag. -/
def change_state (s : TcpSession) (st : TcpState) : TcpSession :=
  { s with state := st, state_init := true }

/-- `__send_packet` (session-object part).  Python evaluates
`seq if seq else self.local_seq_sent`, i.e. the explicit argument is used
only when it is truthy (present and non-zero).  Returns the updated session
and the emitted segment; the delayed-ACK timer registration performed when
`state == "ESTABLISHED"` lives at the world level (`world_send_packet`). -/
def send_packet (s : TcpSession) (seq : Option Int)
    (flag_syn flag_ack flag_fin flag_rst : Bool) (raw_data : List Nat) :
    TcpSession × TcpPacketOut :=
  let used_seq : Int :=
    match seq with
    | some v => if v ≠ 0 then v else s.local_seq_sent
    | none => s.local_seq_sent
  let pkt : TcpPacketOut :=
    { tcp_seq := used_seq
      tcp_ack := if flag_ack then s.remote_seq_rcvd else some 0
      tcp_flag_syn := flag_syn
      tcp_flag_ack := flag_ack
      tcp_flag_fin := flag_fin
      tcp_flag_rst := flag_rst
      tcp_win := s.local_win
      tcp_mss := if flag_syn then some s.local_mss else none
      raw_data := raw_data }
  let sent := used_seq + raw_data.length + b2i flag_syn + b2i flag_fin
  ({ s with
      remote_seq_ackd := s.remote_seq_rcvd
      local_seq_sent := sent
      local_seq_fin := if flag_fin then some sent else s.local_seq_fin },
   pkt)

/-- `send`: legal only in ESTABLISHED / CLOSE_WAIT, where it extends
`tx_buffer` and returns `len(raw_data)`; in any other state the function
falls off its end and Python returns `None`. -/
def session_send (s : TcpSession) (raw_data : List Nat) :
    Option Int × TcpSession :=
  if s.state = .ESTABLISHED ∨ s.state = .CLOSE_WAIT then
    (some (raw_data.length : Int), { s with tx_buffer := s.tx_buffer ++ raw_data })
  else
    (none, s)

/-- `receive`: `event_rx_buffer.acquire()` blocks while the semaphore counter
is 0 — modelled by returning `none` ("the call would block").  Otherwise the
counter is decremented and the body runs: `None` (EOF) when `rx_buffer` is
empty in CLOSE_WAIT; else take `min(byte_count, len)` bytes (all of them when
`byte_count is None`), delete them from the buffer, and re-release the
semaphore when data remains or the state is CLOSE_WAIT. -/
def session_receive (s : TcpSession) (byte_count : Option Int) :
    Option (Option (List Nat) × TcpSession) :=
  if s.event_rx_buffer = 0 then
    none
  else
    let s0 := { s with event_rx_buffer := s.event_rx_buffer - 1 }
    if s0.rx_buffer = [] ∧ s0.state = .CLOSE_WAIT then
      some (none, s0)
    else
      let n : Int :=
        match byte_count with
        | none => (s0.rx_buffer.length : Int)
        | some k => min k (s0.rx_buffer.length : Int)
      let ret := py_first_slice n s0.rx_buffer
      let rest := py_del_slice n s0.rx_buffer
      let s1 := { s0 with rx_buffer := rest }
      let s2 :=
        if rest ≠ [] ∨ s1.state = .CLOSE_WAIT then
          { s1 with event_rx_buffer := s1.event_rx_buffer + 1 }
        else s1
      some (some ret, s2)

/-- `__enqueue_rx_buffer`: extend `rx_buffer` and release the RX semaphore
only when its counter is 0 (`if not self.event_rx_buffer._value`). -/
def enqueue_rx_buffer (s : TcpSession) (raw_data : List Nat) : TcpSession :=
  { s with
      rx_buffer := s.rx_buffer ++ raw_data
      event_rx_buffer := if s.event_rx_buffer = 0 then 1 else s.event_rx_buffer }

/-- `__process_ack_packet`.  Note that `self.tx_buffer_seq_ackd` is a
property; the `del` uses it before `tx_buffer_seq_mod` changes, and the
`+=` line re-reads it after the `del` (which did not change the property's
value).  Returns the updated session together with any segment emitted by
the optional immediate ACK. -/
def process_ack_packet (s : TcpSession) (packet : TcpPacketIn)
    (send_ack : Bool := false) : TcpSession × List TcpPacketOut :=
  let s1 := { s with local_seq_ackd := max s.local_seq_ackd packet.ack }
  let s2 := { s1 with
      remote_seq_rcvd :=
        some (packet.seq + packet.raw_data.length
              + b2i packet.flag_syn + b2i packet.flag_fin) }
  let s3 := if packet.raw_data ≠ [] then enqueue_rx_buffer s2 packet.raw_data else s2
  let step4 : TcpSession × List TcpPacketOut :=
    if send_ack ∧ packet.raw_data ≠ [] then
      let r := send_packet s3 none false true false false []
      (r.1, [r.2])
    else (s3, [])
  let s4 := step4.1
  let off := s4.tx_buffer_seq_ackd
  let s5 := { s4 with tx_buffer := py_del_slice off s4.tx_buffer }
  ({ s5 with tx_buffer_seq_mod := s5.tx_buffer_seq_mod + s5.tx_buffer_seq_ackd },
   step4.2)

/-- `connect()` after the FSM injection: `event_connect.acquire()` then
`return self.state == "ESTABLISHED"`.  `none` models an acquire that blocks
because the semaphore counter is 0. -/
def connect_result (s : TcpSession) : Option Bool :=
  if s.event_connect = 0 then none else some (s.state = .ESTABLISHED)

/-! ## The session together with its named timers and its output

`stack.stack_timer` keeps named countdown timers in a dict; a name expires
exactly when its value reaches 0 (the tick thread then evicts it and
`timer_expired` treats a missing name as expired).  The four names a session
uses are modelled as counters where 0 means "absent or expired".  `clock`
counts the 1 ms ticks of the timer thread and `out` logs every segment
passed to `phtx_tcp`, newest first, tagged with the clock at emission. -/

structure TcpWorld where
  sess : TcpSession
  syn_sent_timer : Nat
  syn_rcvd_timer : Nat
  time_wait_timer : Nat
  delayed_ack_timer : Nat
  clock : Nat
  out : List (Nat × TcpPacketOut)
deriving DecidableEq, Repr

/-- The syscalls injected into `tcp_fsm`. -/
inductive Syscall
  | CONNECT | LISTEN | CLOSE
deriving DecidableEq, Repr

/-- `__send_packet` including its last step: when the session is in
ESTABLISHED the named delayed-ACK timer is (re)armed. -/
def world_send_packet (w : TcpWorld) (seq : Option Int)
    (flag_syn flag_ack flag_fin flag_rst : Bool) (raw_data : List Nat) :
    TcpWorld :=
  let r := send_packet w.sess seq flag_syn flag_ack flag_fin flag_rst raw_data
  let w1 := { w with sess := r.1, out := (w.clock, r.2) :: w.out }
  if w1.sess.state = .ESTABLISHED then
    { w1 with delayed_ack_timer := DELAYED_ACK_DELAY }
  else w1

/-- `__tcp_fsm_closed`: the state-init block, then the CONNECT branch
(send SYN, go to SYN_SENT) and the LISTEN branch. -/
def tcp_fsm_closed (w : TcpWorld) (_packet : Option TcpPacketIn)
    (syscall : Option Syscall) (_timer : Bool) : TcpWorld :=
  let w :=
    if w.sess.state_init then { w with sess := { w.sess with state_init := false } }
    else w
  let w :=
    if syscall = some .CONNECT then
      let w1 := world_send_packet w none true false false false []
      { w1 with sess := change_state w1.sess .SYN_SENT }
    else w
  if syscall = some .LISTEN then { w with sess := change_state w.sess .LISTEN }
  else w

/-- Branch guard at tcp_session.py:342 — SYN+ACK:
`all({flag_syn, flag_ack}) and not any({flag_fin, flag_rst})`. -/
def syn_sent_synack_guard (p : TcpPacketIn) : Prop :=
  (p.flag_syn = true ∧ p.flag_ack = true) ∧ ¬(p.flag_fin = true ∨ p.flag_rst = true)

instance (p : TcpPacketIn) : Decidable (syn_sent_synack_guard p) := by
  unfold syn_sent_synack_guard; infer_instance

/-- Branch guard at tcp_session.py:358 — intended "SYN alone", written
`all({flag_syn}) and not any({flag_ack, flag_fin, flag_syn})`: note that
`flag_syn` occurs in both the positive and the negated set. -/
def syn_sent_syn_alone_guard (p : TcpPacketIn) : Prop :=
  p.flag_syn = true ∧ ¬(p.flag_ack = true ∨ p.flag_fin = true ∨ p.flag_syn = true)

instance (p : TcpPacketIn) : Decidable (syn_sent_syn_alone_guard p) := by
  unfold syn_sent_syn_alone_guard; infer_instance

/-- Branch guard at tcp_session.py:368 — RST:
`all({flag_rst}) and not any({flag_fin, flag_syn})`. -/
def syn_sent_rst_guard (p : TcpPacketIn) : Prop :=
  p.flag_rst = true ∧ ¬(p.flag_fin = true ∨ p.flag_syn = true)

instance (p : TcpPacketIn) : Decidable (syn_sent_rst_guard p) := by
  unfold syn_sent_rst_guard; infer_instance

/-- `__tcp_fsm_syn_sent`.  Each Python `if`-block either returns or performs
no side effect before falling through, so the blocks are translated into an
`if`-chain whose guards conjoin the branch condition with its sanity check. -/
def tcp_fsm_syn_sent (w : TcpWorld) (packet : Option TcpPacketIn)
    (syscall : Option Syscall) (timer : Bool) : TcpWorld :=
  -- State initialization: reset resend count, arm the "syn_sent" timer
  let w :=
    if w.sess.state_init then
      { w with
          sess := { w.sess with state_init := false, syn_sent_resend_count := 0 }
          syn_sent_timer := PACKET_RESEND_DELAY }
    else w
  -- Timer expired and our SYN not acked yet -> re-send SYN (or give up)
  if timer = true ∧ w.syn_sent_timer = 0 ∧
      w.sess.local_seq_ackd < w.sess.local_seq_sent then
    if w.sess.syn_sent_resend_count = PACKET_RESEND_COUNT then
      { w with sess := change_state w.sess .CLOSED }
    else
      let w1 := world_send_packet w (some w.sess.local_seq_ackd) true false false false []
      let cnt := w1.sess.syn_sent_resend_count + 1
      { w1 with
          sess := { w1.sess with syn_sent_resend_count := cnt }
          syn_sent_timer := PACKET_RESEND_DELAY * 2 ^ cnt }
  else
    match packet with
    | some p =>
      if syn_sent_synack_guard p ∧ p.ack = w.sess.local_seq_sent ∧ p.raw_data = [] then
        -- SYN+ACK: process the ACK, record peer parameters, send the final
        -- handshake ACK, move to ESTABLISHED
        let r := process_ack_packet w.sess p false
        let rm := min p.mss (stack_mtu - 80)
        let s2 := { r.1 with
            remote_mss := some rm
            remote_win := some (if USE_REMOTE_WIN then p.win else rm)
            remote_seq_init := some p.seq }
        let w1 := world_send_packet { w with sess := s2 } none false true false false []
        { w1 with sess := change_state w1.sess .ESTABLISHED }
      else if syn_sent_syn_alone_guard p ∧ p.ack = 0 ∧ p.raw_data = [] then
        -- (unreachable in the source: the guard is unsatisfiable)
        let w1 := world_send_packet w none true true false false []
        { w1 with sess := change_state w1.sess .SYN_RCVD }
      else if syn_sent_rst_guard p then
        let s1 := change_state w.sess .CLOSED
        { w with sess := { s1 with event_connect := s1.event_connect + 1 } }
      else if syscall = some .CLOSE then
        { w with sess := change_state w.sess .CLOSED }
      else w
    | none =>
      if syscall = some .CLOSE then
        { w with sess := change_state w.sess .CLOSED }
      else w

/-- `tcp_fsm` dispatch.  The C1/C2 traces proved below only ever dispatch to
the CLOSED and SYN_SENT handlers; the remaining nine state handlers are not
reached by any theorem in this file and are left as the identity. -/
def tcp_fsm (w : TcpWorld) (packet : Option TcpPacketIn := none)
    (syscall : Option Syscall := none) (timer : Bool := false) : TcpWorld :=
  if w.sess.state = .CLOSED then tcp_fsm_closed w packet syscall timer
  else if w.sess.state = .SYN_SENT then tcp_fsm_syn_sent w packet syscall timer
  else w

/-- One 1 ms iteration of `StackTimer.__thread_timer` restricted to one
session's registered work: decrement every named timer (an expired name is
evicted, which `timer_expired` treats the same as value 0), then run the
session's registered method task `tcp_fsm(timer=True)` (registered with
`delay=1, repeat_count=-1`, hence firing on every tick). -/
def world_tick (w : TcpWorld) : TcpWorld :=
  let w1 := { w with
      syn_sent_timer := w.syn_sent_timer - 1
      syn_rcvd_timer := w.syn_rcvd_timer - 1
      time_wait_timer := w.time_wait_timer - 1
      delayed_ack_timer := w.delayed_ack_timer - 1
      clock := w.clock + 1 }
  tcp_fsm w1 none none true

/-- Iterate `world_tick`. -/
def run_ticks : Nat → TcpWorld → TcpWorld
  | 0, w => w
  | n + 1, w => run_ticks n (world_tick w)

/-- A fresh world around a fresh session (all named timers absent). -/
def mk_world (isn local_win local_mss : Int) : TcpWorld where
  sess := mk_tcp_session isn local_win local_mss
  syn_sent_timer := 0
  syn_rcvd_timer := 0
  time_wait_timer := 0
  delayed_ack_timer := 0
  clock := 0
  out := []

/-! ## Tick-trace lemmas -/

/-- Ticks compose. -/
theorem run_ticks_add (a b : Nat) (w : TcpWorld) :
    run_ticks (a + b) w = run_ticks b (run_ticks a w) := by
  induction a generalizing w with
  | zero => simp [run_ticks]
  | succ a ih =>
    have : a + 1 + b = (a + b) + 1 := by omega
    rw [this]
    show run_ticks (a + b) (world_tick w) = run_ticks b (run_ticks a (world_tick w))
    exact ih (world_tick w)

/-- A tick of a SYN_SENT session whose `syn_sent` timer has not yet run out
only decrements the timers and advances the clock. -/
theorem world_tick_syn_sent_quiet (w : TcpWorld)
    (h1 : w.sess.state = .SYN_SENT) (h2 : w.sess.state_init = false)
    (h3 : 2 ≤ w.syn_sent_timer) :
    world_tick w =
      { w with
          syn_sent_timer := w.syn_sent_timer - 1
          syn_rcvd_timer := w.syn_rcvd_timer - 1
          time_wait_timer := w.time_wait_timer - 1
          delayed_ack_timer := w.delayed_ack_timer - 1
          clock := w.clock + 1 } := by
  have hne : ¬(w.syn_sent_timer - 1 = 0) := by omega
  simp [world_tick, tcp_fsm, tcp_fsm_syn_sent, h1, h2, hne]

/-- Iterated quiet SYN_SENT ticks. -/
theorem run_ticks_syn_sent_quiet (k : Nat) (w : TcpWorld)
    (h1 : w.sess.state = .SYN_SENT) (h2 : w.sess.state_init = false)
    (h3 : k + 1 ≤ w.syn_sent_timer) :
    run_ticks k w =
      { w with
          syn_sent_timer := w.syn_sent_timer - k
          syn_rcvd_timer := w.syn_rcvd_timer - k
          time_wait_timer := w.time_wait_timer - k
          delayed_ack_timer := w.delayed_ack_timer - k
          clock := w.clock + k } := by
  induction k generalizing w with
  | zero => simp [run_ticks]
  | succ k ih =>
    show run_ticks k (world_tick w) = _
    rw [world_tick_syn_sent_quiet w h1 h2 (by omega)]
    have step := ih
      { w with
          syn_sent_timer := w.syn_sent_timer - 1
          syn_rcvd_timer := w.syn_rcvd_timer - 1
          time_wait_timer := w.time_wait_timer - 1
          delayed_ack_timer := w.delayed_ack_timer - 1
          clock := w.clock + 1 }
      h1 h2 (by show k + 1 ≤ w.syn_sent_timer - 1; omega)
    rw [step]
    simp only [TcpWorld.mk.injEq, true_and, and_true]
    omega

/-- A tick of a CLOSED session (no packet, no syscall) only consumes the
state-init flag; in particular no segment is emitted and `event_connect`
is untouched. -/
theorem world_tick_closed (w : TcpWorld) (h1 : w.sess.state = .CLOSED) :
    (world_tick w).sess.state = .CLOSED ∧
    (world_tick w).out = w.out ∧
    (world_tick w).sess.event_connect = w.sess.event_connect := by
  simp [world_tick, tcp_fsm, tcp_fsm_closed, h1]
  by_cases hi : w.sess.state_init <;> simp [hi, h1]

/-- Iterated version of `world_tick_closed`. -/
theorem run_ticks_closed (n : Nat) (w : TcpWorld) (h1 : w.sess.state = .CLOSED) :
    (run_ticks n w).sess.state = .CLOSED ∧
    (run_ticks n w).out = w.out ∧
    (run_ticks n w).sess.event_connect = w.sess.event_connect := by
  induction n generalizing w with
  | zero => exact ⟨h1, rfl, rfl⟩
  | succ n ih =>
    obtain ⟨a, b, c⟩ := world_tick_closed w h1
    obtain ⟨a', b', c'⟩ := ih (world_tick w) a
    exact ⟨a', by rw [run_ticks, b', b], by rw [run_ticks, c', c]⟩

theorem run_ticks_one (w : TcpWorld) : run_ticks 1 w = world_tick w := rfl

/-! ## The C1 scenario: `connect()` against a non-responding peer

Concrete instantiation: `local_seq_init = 5`, `local_win = 1024`,
`local_mss = 536`; no packet ever arrives, the timer ticks every 1 ms. -/

/-- The SYN segment this session emits (initially and on every retransmit):
`seq = 5` (= `local_seq_ackd` = ISS), MSS advertised, no ACK. -/
def c1_syn_segment : TcpPacketOut where
  tcp_seq := 5
  tcp_ack := some 0
  tcp_flag_syn := true
  tcp_flag_ack := false
  tcp_flag_fin := false
  tcp_flag_rst := false
  tcp_win := 1024
  tcp_mss := some 536
  raw_data := []

/-- The session during SYN_SENT: only the resend counter varies. -/
def c1_sess (count : Nat) : TcpSession :=
  { mk_tcp_session 5 1024 536 with
      state := .SYN_SENT
      state_init := false
      local_seq_sent := 6
      syn_sent_resend_count := count }

/-- World snapshots along the C1 trace. -/
def c1_world (count timer clock : Nat) (log : List (Nat × TcpPacketOut)) :
    TcpWorld where
  sess := c1_sess count
  syn_sent_timer := timer
  syn_rcvd_timer := 0
  time_wait_timer := 0
  delayed_ack_timer := 0
  clock := clock
  out := log

/-- The world right after `connect()` injected the CONNECT syscall (initial
SYN emitted at clock 0, state SYN_SENT with its init still pending). -/
def c1_start : TcpWorld :=
  tcp_fsm (mk_world 5 1024 536) none (some .CONNECT) false

def c1_log1 : List (Nat × TcpPacketOut) := [(0, c1_syn_segment)]
def c1_log2 : List (Nat × TcpPacketOut) := (1001, c1_syn_segment) :: c1_log1
def c1_log3 : List (Nat × TcpPacketOut) := (3001, c1_syn_segment) :: c1_log2
def c1_log4 : List (Nat × TcpPacketOut) := (7001, c1_syn_segment) :: c1_log3
def c1_log5 : List (Nat × TcpPacketOut) := (15001, c1_syn_segment) :: c1_log4

/-- The world after the give-up tick: CLOSED, five SYNs ever sent,
`event_connect` never released. -/
def c1_final : TcpWorld where
  sess := change_state (c1_sess 4) .CLOSED
  syn_sent_timer := 0
  syn_rcvd_timer := 0
  time_wait_timer := 0
  delayed_ack_timer := 0
  clock := 31001
  out := c1_log5

theorem c1_at_31000 :
    run_ticks 31000 c1_start = c1_world 4 1 31000 c1_log5 := by
  have t1 : world_tick c1_start = c1_world 0 1000 1 c1_log1 := by rfl
  have q1 : run_ticks 999 (c1_world 0 1000 1 c1_log1) = c1_world 0 1 1000 c1_log1 := by
    rw [run_ticks_syn_sent_quiet 999 _ rfl rfl (by decide)]; rfl
  have f1 : world_tick (c1_world 0 1 1000 c1_log1) = c1_world 1 2000 1001 c1_log2 := by rfl
  have q2 : run_ticks 1999 (c1_world 1 2000 1001 c1_log2) = c1_world 1 1 3000 c1_log2 := by
    rw [run_ticks_syn_sent_quiet 1999 _ rfl rfl (by decide)]; rfl
  have f2 : world_tick (c1_world 1 1 3000 c1_log2) = c1_world 2 4000 3001 c1_log3 := by rfl
  have q3 : run_ticks 3999 (c1_world 2 4000 3001 c1_log3) = c1_world 2 1 7000 c1_log3 := by
    rw [run_ticks_syn_sent_quiet 3999 _ rfl rfl (by decide)]; rfl
  have f3 : world_tick (c1_world 2 1 7000 c1_log3) = c1_world 3 8000 7001 c1_log4 := by rfl
  have q4 : run_ticks 7999 (c1_world 3 8000 7001 c1_log4) = c1_world 3 1 15000 c1_log4 := by
    rw [run_ticks_syn_sent_quiet 7999 _ rfl rfl (by decide)]; rfl
  have f4 : world_tick (c1_world 3 1 15000 c1_log4) = c1_world 4 16000 15001 c1_log5 := by rfl
  have q5 : run_ticks 15999 (c1_world 4 16000 15001 c1_log5) = c1_world 4 1 31000 c1_log5 := by
    rw [run_ticks_syn_sent_quiet 15999 _ rfl rfl (by decide)]; rfl
  rw [show (31000 : Nat) =
      1 + (999 + (1 + (1999 + (1 + (3999 + (1 + (7999 + (1 + 15999)))))))) from by norm_num]
  rw [run_ticks_add, run_ticks_one, t1]
  rw [run_ticks_add, q1]
  rw [run_ticks_add, run_ticks_one, f1]
  rw [run_ticks_add, q2]
  rw [run_ticks_add, run_ticks_one, f2]
  rw [run_ticks_add, q3]
  rw [run_ticks_add, run_ticks_one, f3]
  rw [run_ticks_add, q4]
  rw [run_ticks_add, run_ticks_one, f4]
  exact q5


/-- C1: against a non-responding peer the session emits exactly 5 SYNs —
the initial one at clock 0 (ms) and retransmissions at 1001, 3001, 7001 and
15001 (delays of ≈1 s, 2 s, 4 s and 8 s), each retransmission with
`seq = local_seq_ackd`; 16 s after the fifth SYN (clock 31001) the session
transitions to CLOSED and emits nothing further.  However, `event_connect`
is never released on this path, so `connect()` — which blocks on that
semaphore before returning `state == "ESTABLISHED"` — never returns at all,
contradicting the claim that it returns false. -/
theorem c1_syn_retransmission_timeout :
    run_ticks 31001 c1_start = c1_final ∧
    (run_ticks 31000 c1_start).sess.state = .SYN_SENT ∧
    c1_final.sess.state = .CLOSED ∧
    c1_final.out =
      [(15001, c1_syn_segment), (7001, c1_syn_segment), (3001, c1_syn_segment),
       (1001, c1_syn_segment), (0, c1_syn_segment)] ∧
    c1_syn_segment.tcp_seq = (c1_sess 0).local_seq_ackd ∧
    (∀ n : Nat,
      (run_ticks n c1_final).out = c1_final.out ∧
      (run_ticks n c1_final).sess.state = .CLOSED ∧
      connect_result (run_ticks n c1_final).sess = none) := by
  have main : run_ticks 31001 c1_start = c1_final := by
    rw [show (31001 : Nat) = 31000 + 1 from by norm_num, run_ticks_add,
        c1_at_31000, run_ticks_one]
    rfl
  refine ⟨main, by rw [c1_at_31000]; rfl, rfl, rfl, rfl, ?_⟩
  intro n
  obtain ⟨a, b, c⟩ := run_ticks_closed n c1_final rfl
  refine ⟨b, a, ?_⟩
  rw [connect_result, c]
  rfl

/-! ## The C2 scenario: a bare SYN arriving in SYN_SENT (simultaneous open) -/

/-- A session sitting in SYN_SENT (init done, resend timer still running). -/
def c2_world : TcpWorld where
  sess :=
    { mk_tcp_session 5 1024 536 with
        state := .SYN_SENT
        state_init := false
        local_seq_sent := 6 }
  syn_sent_timer := 500
  syn_rcvd_timer := 0
  time_wait_timer := 0
  delayed_ack_timer := 0
  clock := 501
  out := []

/-- A well-formed simultaneous-open segment: SYN alone, `ack == 0`,
no payload. -/
def c2_syn_packet : TcpPacketIn where
  seq := 900
  ack := 0
  flag_syn := true
  flag_ack := false
  flag_fin := false
  flag_rst := false
  raw_data := []
  win := 1000
  mss := 500

/-- C2: the source's "SYN alone" branch in the SYN_SENT handler tests
`all({flag_syn}) and not any({flag_ack, flag_fin, flag_syn})`, a condition
no packet can satisfy (`flag_syn` appears on both sides).  Consequently a
well-formed bare SYN delivered in SYN_SENT is ignored completely: no
SYN+ACK is emitted and the state stays SYN_SENT instead of moving to
SYN_RCVD. -/
theorem c2_syn_sent_simultaneous_open_dead :
    (∀ p : TcpPacketIn, ¬ syn_sent_syn_alone_guard p) ∧
    tcp_fsm c2_world (some c2_syn_packet) none false = c2_world ∧
    c2_world.sess.state = .SYN_SENT ∧
    c2_world.out = [] := by
  refine ⟨?_, by rfl, rfl, rfl⟩
  rintro p ⟨h, hn⟩
  exact hn (Or.inr (Or.inr h))


/-! ## C10: truthiness of the `seq` argument of `__send_packet` -/

/-- A SYN_SENT world whose ISS is 0, so `local_seq_ackd == 0` when the
retransmission fires. -/
def c10_world : TcpWorld where
  sess :=
    { mk_tcp_session 0 1024 536 with
        state := .SYN_SENT
        state_init := false
        local_seq_sent := 1 }
  syn_sent_timer := 0
  syn_rcvd_timer := 0
  time_wait_timer := 0
  delayed_ack_timer := 0
  clock := 1001
  out := []

/-- C10: `tcp_seq=seq if seq else self.local_seq_sent` tests the argument
for truthiness, so an explicit `seq=0` is replaced by `local_seq_sent`;
in particular the SYN retransmission in SYN_SENT, which passes
`seq=self.local_seq_ackd`, emits `seq = local_seq_sent` (≠ `local_seq_ackd`)
whenever `local_seq_ackd` happens to be 0. -/
theorem c10_send_packet_seq_zero_truthiness :
    (∀ (s : TcpSession) (fs fa ff fr : Bool) (d : List Nat),
        (send_packet s (some 0) fs fa ff fr d).2.tcp_seq = s.local_seq_sent) ∧
    (∀ w : TcpWorld,
        w.sess.state = .SYN_SENT →
        w.sess.state_init = false →
        w.syn_sent_timer = 0 →
        w.sess.local_seq_ackd = 0 →
        w.sess.local_seq_ackd < w.sess.local_seq_sent →
        w.sess.syn_sent_resend_count ≠ PACKET_RESEND_COUNT →
        Option.map (fun q => q.2.tcp_seq) (tcp_fsm_syn_sent w none none true).out.head?
          = some w.sess.local_seq_sent ∧
        w.sess.local_seq_sent ≠ w.sess.local_seq_ackd) := by
  constructor
  · intro s fs fa ff fr d
    simp [send_packet]
  · intro w h0 h1 h2 h3 h4 h5
    refine ⟨?_, by omega⟩
    have h4' : (0 : Int) < w.sess.local_seq_sent := h3 ▸ h4
    simp [tcp_fsm_syn_sent, world_send_packet, send_packet, h0, h1, h2, h3, h4', h5]

/-- Witness for `c10_send_packet_seq_zero_truthiness` at concrete inputs. -/
theorem c10_send_packet_seq_zero_truthiness_witness :
    (send_packet (mk_tcp_session 7 1024 536) (some 0) true false false false []).2.tcp_seq
        = (mk_tcp_session 7 1024 536).local_seq_sent ∧
    Option.map (fun q => q.2.tcp_seq) (tcp_fsm_syn_sent c10_world none none true).out.head?
        = some c10_world.sess.local_seq_sent ∧
    c10_world.sess.local_seq_sent ≠ c10_world.sess.local_seq_ackd := by
  refine ⟨c10_send_packet_seq_zero_truthiness.1 _ true false false false [], ?_, ?_⟩
  · exact (c10_send_packet_seq_zero_truthiness.2 c10_world rfl rfl rfl rfl
      (by decide) (by decide)).1
  · exact (c10_send_packet_seq_zero_truthiness.2 c10_world rfl rfl rfl rfl
      (by decide) (by decide)).2

/-! ## C4: `send` outside ESTABLISHED / CLOSE_WAIT -/

/-- An established session for exercising the legal `send` path. -/
def c4_est_sess : TcpSession :=
  { mk_tcp_session 42 1024 536 with state := .ESTABLISHED, state_init := false }

/-- C4 counterexample: on a CLOSED session `send` is a no-op whose Python
return value is `None`, not the claimed `0`. -/
theorem c4_send_closed_returns_none :
    (session_send (mk_tcp_session 42 1024 536) [1, 2, 3]).1 = none ∧
    (session_send (mk_tcp_session 42 1024 536) [1, 2, 3]).1 ≠ some 0 ∧
    (session_send (mk_tcp_session 42 1024 536) [1, 2, 3]).2 = mk_tcp_session 42 1024 536 := by
  refine ⟨rfl, by decide, rfl⟩

/-- C4 (amended): in ESTABLISHED or CLOSE_WAIT, `send(b)` appends `b` to
`tx_buffer` and returns `len(b)`; in every other state it is a no-op that
leaves the session unchanged and returns `None` (no value), not 0. -/
theorem c4_send_state_contract (s : TcpSession) (d : List Nat) :
    ((s.state = .ESTABLISHED ∨ s.state = .CLOSE_WAIT) →
      session_send s d = (some (d.length : Int), { s with tx_buffer := s.tx_buffer ++ d })) ∧
    (¬(s.state = .ESTABLISHED ∨ s.state = .CLOSE_WAIT) →
      session_send s d = (none, s)) := by
  constructor <;> intro h <;> simp [session_send, h]

/-- Witness for `c4_send_state_contract` at concrete inputs. -/
theorem c4_send_state_contract_witness :
    session_send c4_est_sess [9, 8]
      = (some 2, { c4_est_sess with tx_buffer := c4_est_sess.tx_buffer ++ [9, 8] }) ∧
    session_send (mk_tcp_session 42 1024 536) [9, 8]
      = (none, mk_tcp_session 42 1024 536) := by
  constructor
  · exact (c4_send_state_contract c4_est_sess [9, 8]).1 (Or.inl rfl)
  · exact (c4_send_state_contract (mk_tcp_session 42 1024 536) [9, 8]).2 (by decide)

/-! ## C3: the `receive` contract -/

/-- Number of bytes `receive` hands back, in the claim's terms: all available
bytes when `byte_count` is unspecified, else at most `byte_count`. -/
def take_count (bc : Option Int) (s : TcpSession) : Nat :=
  match bc with
  | none => s.rx_buffer.length
  | some k => min k.toNat s.rx_buffer.length

theorem py_slice_len_of_nonneg (k : Int) (hk : 0 ≤ k) (n : Nat) :
    py_slice_len k n = min k.toNat n := by
  simp only [py_slice_len]
  rw [if_neg (by omega)]

/-- C3: with the RX semaphore posted (counter ≥ 1) a `receive(byte_count)`
call proceeds without blocking; it returns `None` exactly when the state is
CLOSE_WAIT and `rx_buffer` is empty; otherwise it returns the first
`take_count` bytes and removes exactly those from `rx_buffer`, and it
re-posts the RX signal iff data remains or the state is CLOSE_WAIT; in
particular `receive(0)` with data present returns an empty byte sequence
and leaves the semaphore counter as it was. -/
theorem c3_receive_contract (s : TcpSession) (bc : Option Int)
    (hblock : 1 ≤ s.event_rx_buffer)
    (hnn : ∀ k, bc = some k → 0 ≤ k) :
    (∃ r, session_receive s bc = some r) ∧
    (s.rx_buffer = [] ∧ s.state = .CLOSE_WAIT →
      session_receive s bc
        = some (none, { s with event_rx_buffer := s.event_rx_buffer - 1 })) ∧
    (¬(s.rx_buffer = [] ∧ s.state = .CLOSE_WAIT) →
      ∃ s',
        session_receive s bc
          = some (some (s.rx_buffer.take (take_count bc s)), s') ∧
        s'.rx_buffer = s.rx_buffer.drop (take_count bc s) ∧
        s.rx_buffer.take (take_count bc s) ++ s'.rx_buffer = s.rx_buffer ∧
        ((s'.rx_buffer ≠ [] ∨ s.state = .CLOSE_WAIT) →
          s'.event_rx_buffer = s.event_rx_buffer) ∧
        (¬(s'.rx_buffer ≠ [] ∨ s.state = .CLOSE_WAIT) →
          s'.event_rx_buffer = s.event_rx_buffer - 1)) ∧
    (s.rx_buffer ≠ [] → bc = some 0 →
      ∃ s', session_receive s bc = some (some [], s') ∧
        s'.event_rx_buffer = s.event_rx_buffer) := by
  have hne : ¬(s.event_rx_buffer = 0) := by omega
  have hcw_eq : (s.rx_buffer = [] ∧ s.state = .CLOSE_WAIT) →
      session_receive s bc
        = some (none, { s with event_rx_buffer := s.event_rx_buffer - 1 }) := by
    intro hcw
    simp [session_receive, hne, hcw.1, hcw.2]
  have hmain : ¬(s.rx_buffer = [] ∧ s.state = .CLOSE_WAIT) →
      session_receive s bc
        = some (some (s.rx_buffer.take (take_count bc s)),
            { s with
                rx_buffer := s.rx_buffer.drop (take_count bc s)
                event_rx_buffer :=
                  if s.rx_buffer.drop (take_count bc s) ≠ [] ∨ s.state = .CLOSE_WAIT
                  then s.event_rx_buffer else s.event_rx_buffer - 1 }) := by
    intro hcw
    cases bc with
    | none =>
      have e : py_slice_len ((s.rx_buffer.length : Nat) : Int) s.rx_buffer.length
          = s.rx_buffer.length := by
        rw [py_slice_len_of_nonneg _ (by positivity)]
        simp
      simp only [session_receive, if_neg hne, py_first_slice, py_del_slice,
        take_count]
      rw [if_neg (by simpa using hcw)]
      simp only [e]
      split_ifs with h
      · simp only [Option.some.injEq, Prod.mk.injEq, true_and,
          TcpSession.mk.injEq, and_true, true_and]
        omega
      · rfl
    | some k =>
      have hk : 0 ≤ k := hnn k rfl
      have h0 : (0 : Int) ≤ min k (s.rx_buffer.length : Int) :=
        le_min hk (by positivity)
      have e : py_slice_len (min k (s.rx_buffer.length : Int)) s.rx_buffer.length
          = min k.toNat s.rx_buffer.length := by
        rw [py_slice_len_of_nonneg _ h0]
        omega
      simp only [session_receive, if_neg hne, py_first_slice, py_del_slice,
        take_count]
      rw [if_neg (by simpa using hcw)]
      simp only [e]
      split_ifs with h
      · simp only [Option.some.injEq, Prod.mk.injEq, true_and,
          TcpSession.mk.injEq, and_true, true_and]
        omega
      · rfl
  by_cases hcw : s.rx_buffer = [] ∧ s.state = .CLOSE_WAIT
  · refine ⟨⟨_, hcw_eq hcw⟩, fun _ => hcw_eq hcw,
      fun h => absurd hcw h, fun h _ => absurd hcw.1 h⟩
  · refine ⟨⟨_, hmain hcw⟩, fun h => absurd h hcw, fun _ => ?_, fun hnonempty hbc => ?_⟩
    · refine ⟨_, hmain hcw, rfl, List.take_append_drop _ _, ?_, ?_⟩
      · intro h
        simp only at h ⊢
        rw [if_pos h]
      · intro h
        simp only at h ⊢
        rw [if_neg h]
    · subst hbc
      have hd : take_count (some 0) s = 0 := by simp [take_count]
      have hrest : s.rx_buffer.drop (take_count (some 0) s) ≠ [] := by
        rw [hd]; simpa using hnonempty
      refine ⟨{ s with
          rx_buffer := s.rx_buffer.drop (take_count (some 0) s)
          event_rx_buffer :=
            if s.rx_buffer.drop (take_count (some 0) s) ≠ [] ∨ s.state = .CLOSE_WAIT
            then s.event_rx_buffer else s.event_rx_buffer - 1 }, ?_, ?_⟩
      · rw [hmain hcw]
        rw [hd]
        simp
      · show (if _ ∨ _ then s.event_rx_buffer else s.event_rx_buffer - 1)
            = s.event_rx_buffer
        rw [if_pos (Or.inl hrest)]

/-- A session with data pending for the `receive` witness. -/
def c3_sess : TcpSession :=
  { mk_tcp_session 42 1024 536 with
      state := .ESTABLISHED
      state_init := false
      rx_buffer := [1, 2, 3]
      event_rx_buffer := 1 }

/-- Witness for `c3_receive_contract`: `receive(2)` on a session holding
3 buffered bytes. -/
theorem c3_receive_contract_witness :
    ∃ s', session_receive c3_sess (some 2)
        = some (some (c3_sess.rx_buffer.take (take_count (some 2) c3_sess)), s') ∧
      s'.rx_buffer = c3_sess.rx_buffer.drop (take_count (some 2) c3_sess) ∧
      c3_sess.rx_buffer.take (take_count (some 2) c3_sess) ++ s'.rx_buffer
        = c3_sess.rx_buffer ∧
      ((s'.rx_buffer ≠ [] ∨ c3_sess.state = .CLOSE_WAIT) →
        s'.event_rx_buffer = c3_sess.event_rx_buffer) ∧
      (¬(s'.rx_buffer ≠ [] ∨ c3_sess.state = .CLOSE_WAIT) →
        s'.event_rx_buffer = c3_sess.event_rx_buffer - 1) :=
  (c3_receive_contract c3_sess (some 2) (by decide)
    (fun k hk => by injection hk with h; omega)).2.2.1 (by decide)

/-! ## C5: `__process_ack_packet` -/


/-- C5: processing an ACK packet from a session state satisfying the natural
validity conditions (the acked offset lands inside `tx_buffer`, which holds
at every call site once the handshake ACK was processed): the new
`local_seq_ackd` is `max(old, pkt.ack)`, `remote_seq_rcvd` becomes
`pkt.seq + len(data) + SYN + FIN`, the payload is appended to `rx_buffer`,
the acked prefix is drained from `tx_buffer`, `tx_buffer_seq_mod` advances
by exactly the drained count (ending equal to `local_seq_ackd`), and no
byte with absolute sequence below `local_seq_ackd` remains in `tx_buffer`. -/
theorem c5_process_ack_contract (s : TcpSession) (p : TcpPacketIn) (send_ack : Bool)
    (h1 : s.tx_buffer_seq_mod ≤ s.local_seq_ackd)
    (h2 : max s.local_seq_ackd p.ack ≤ s.tx_buffer_seq_mod + s.tx_buffer.length) :
    (process_ack_packet s p send_ack).1.local_seq_ackd
        = max s.local_seq_ackd p.ack ∧
    (process_ack_packet s p send_ack).1.remote_seq_rcvd
        = some (p.seq + p.raw_data.length + b2i p.flag_syn + b2i p.flag_fin) ∧
    (process_ack_packet s p send_ack).1.rx_buffer
        = s.rx_buffer ++ p.raw_data ∧
    (process_ack_packet s p send_ack).1.tx_buffer
        = s.tx_buffer.drop (max s.local_seq_ackd p.ack - s.tx_buffer_seq_mod).toNat ∧
    ((s.tx_buffer.length : Int) - (process_ack_packet s p send_ack).1.tx_buffer.length)
        = max s.local_seq_ackd p.ack - s.tx_buffer_seq_mod ∧
    (process_ack_packet s p send_ack).1.tx_buffer_seq_mod
        = s.tx_buffer_seq_mod
          + ((s.tx_buffer.length : Int) - (process_ack_packet s p send_ack).1.tx_buffer.length) ∧
    (process_ack_packet s p send_ack).1.tx_buffer_seq_mod
        = (process_ack_packet s p send_ack).1.local_seq_ackd ∧
    (∀ i : Nat, i < (process_ack_packet s p send_ack).1.tx_buffer.length →
      ¬((process_ack_packet s p send_ack).1.tx_buffer_seq_mod + i
          < (process_ack_packet s p send_ack).1.local_seq_ackd)) := by
  have hofflen : (max s.local_seq_ackd p.ack - s.tx_buffer_seq_mod).toNat
      ≤ s.tx_buffer.length := by omega
  have hslice : py_slice_len (max s.local_seq_ackd p.ack - s.tx_buffer_seq_mod)
      s.tx_buffer.length = (max s.local_seq_ackd p.ack - s.tx_buffer_seq_mod).toNat := by
    rw [py_slice_len_of_nonneg _ (by omega)]
    omega
  have hackd : (process_ack_packet s p send_ack).1.local_seq_ackd
      = max s.local_seq_ackd p.ack := by
    by_cases hd : p.raw_data = [] <;> cases send_ack <;>
      simp [process_ack_packet, TcpSession.tx_buffer_seq_ackd, enqueue_rx_buffer,
        send_packet, py_del_slice, b2i, hd]
  have hrcvd : (process_ack_packet s p send_ack).1.remote_seq_rcvd
      = some (p.seq + p.raw_data.length + b2i p.flag_syn + b2i p.flag_fin) := by
    by_cases hd : p.raw_data = [] <;> cases send_ack <;>
      simp [process_ack_packet, TcpSession.tx_buffer_seq_ackd, enqueue_rx_buffer,
        send_packet, py_del_slice, b2i, hd]
  have hrx : (process_ack_packet s p send_ack).1.rx_buffer
      = s.rx_buffer ++ p.raw_data := by
    by_cases hd : p.raw_data = [] <;> cases send_ack <;>
      simp [process_ack_packet, TcpSession.tx_buffer_seq_ackd, enqueue_rx_buffer,
        send_packet, py_del_slice, b2i, hd]
  have htx : (process_ack_packet s p send_ack).1.tx_buffer
      = s.tx_buffer.drop (max s.local_seq_ackd p.ack - s.tx_buffer_seq_mod).toNat := by
    by_cases hd : p.raw_data = [] <;> cases send_ack <;>
      simp [process_ack_packet, TcpSession.tx_buffer_seq_ackd, enqueue_rx_buffer,
        send_packet, py_del_slice, b2i, hd, hslice]
  have hmod : (process_ack_packet s p send_ack).1.tx_buffer_seq_mod
      = max s.local_seq_ackd p.ack := by
    by_cases hd : p.raw_data = [] <;> cases send_ack <;>
      simp [process_ack_packet, TcpSession.tx_buffer_seq_ackd, enqueue_rx_buffer,
        send_packet, py_del_slice, b2i, hd]
  have hdrain : ((s.tx_buffer.length : Int)
        - (process_ack_packet s p send_ack).1.tx_buffer.length)
      = max s.local_seq_ackd p.ack - s.tx_buffer_seq_mod := by
    rw [htx, List.length_drop]
    omega
  refine ⟨hackd, hrcvd, hrx, htx, hdrain, ?_, ?_, ?_⟩
  · rw [hdrain, hmod]
    omega
  · rw [hmod, hackd]
  · intro i hi
    rw [hmod, hackd]
    omega

/-- A mid-transfer established session and an ACK segment for the C5
witness: 2 of the 5 buffered bytes get acked. -/
def c5_sess : TcpSession :=
  { mk_tcp_session 100 1024 536 with
      state := .ESTABLISHED
      state_init := false
      local_seq_sent := 106
      local_seq_ackd := 101
      tx_buffer := [10, 11, 12, 13, 14]
      tx_buffer_seq_mod := 101
      remote_seq_rcvd := some 55
      remote_seq_ackd := some 55 }

def c5_packet : TcpPacketIn where
  seq := 55
  ack := 103
  flag_syn := false
  flag_ack := true
  flag_fin := false
  flag_rst := false
  raw_data := [7, 7]
  win := 1024
  mss := 536

/-- Witness for `c5_process_ack_contract` at concrete inputs. -/
theorem c5_process_ack_contract_witness :
    (process_ack_packet c5_sess c5_packet true).1.local_seq_ackd
        = max c5_sess.local_seq_ackd c5_packet.ack ∧
    (process_ack_packet c5_sess c5_packet true).1.rx_buffer
        = c5_sess.rx_buffer ++ c5_packet.raw_data ∧
    (process_ack_packet c5_sess c5_packet true).1.tx_buffer
        = c5_sess.tx_buffer.drop
            (max c5_sess.local_seq_ackd c5_packet.ack - c5_sess.tx_buffer_seq_mod).toNat ∧
    (process_ack_packet c5_sess c5_packet true).1.tx_buffer_seq_mod
        = (process_ack_packet c5_sess c5_packet true).1.local_seq_ackd := by
  have h := c5_process_ack_contract c5_sess c5_packet true (by decide) (by decide)
  exact ⟨h.1, h.2.2.1, h.2.2.2.1, h.2.2.2.2.2.2.1⟩

/-! ## C6: the sequence-number / buffer-offset invariant -/

/-- The invariant claimed for every session:
`tx_buffer_seq_mod ≤ local_seq_ackd ≤ local_seq_sent` and
`offset_sent ≤ len(tx_buffer)`. -/
def seq_invariant (s : TcpSession) : Prop :=
  s.tx_buffer_seq_mod ≤ s.local_seq_ackd ∧
  s.local_seq_ackd ≤ s.local_seq_sent ∧
  s.local_seq_sent - s.tx_buffer_seq_mod ≤ (s.tx_buffer.length : Int)

instance (s : TcpSession) : Decidable (seq_invariant s) := by
  unfold seq_invariant; infer_instance

/-- Unconditional field accounting for `__process_ack_packet` (shared
helper). -/
theorem process_ack_fields (s : TcpSession) (p : TcpPacketIn) (sa : Bool) :
    (process_ack_packet s p sa).1.local_seq_ackd = max s.local_seq_ackd p.ack ∧
    (process_ack_packet s p sa).1.local_seq_sent = s.local_seq_sent ∧
    (process_ack_packet s p sa).1.tx_buffer
        = py_del_slice (max s.local_seq_ackd p.ack - s.tx_buffer_seq_mod) s.tx_buffer ∧
    (process_ack_packet s p sa).1.tx_buffer_seq_mod
        = s.tx_buffer_seq_mod + (max s.local_seq_ackd p.ack - s.tx_buffer_seq_mod) := by
  refine ⟨?_, ?_, ?_, ?_⟩ <;>
    (by_cases hd : p.raw_data = [] <;> cases sa <;>
      simp [process_ack_packet, TcpSession.tx_buffer_seq_ackd, enqueue_rx_buffer,
        send_packet, py_del_slice, b2i, hd])

/-- C6 counterexample: immediately after construction
`tx_buffer_seq_mod = local_seq_ackd + 1`, so the claimed invariant
`tx_buffer_seq_mod ≤ local_seq_ackd` fails at that point. -/
theorem c6_invariant_fails_at_init :
    ¬ ((mk_tcp_session 7 1024 536).tx_buffer_seq_mod
        ≤ (mk_tcp_session 7 1024 536).local_seq_ackd) ∧
    (mk_tcp_session 7 1024 536).tx_buffer_seq_mod
        = (mk_tcp_session 7 1024 536).local_seq_ackd + 1 ∧
    ¬ seq_invariant (mk_tcp_session 7 1024 536) := by
  refine ⟨by decide, by decide, fun h => absurd h.1 (by decide)⟩

/-- C6 (amended): immediately after construction
`tx_buffer_seq_mod = local_seq_ackd + 1` (so the first inequality fails
there) while `local_seq_ackd ≤ local_seq_sent` and
`offset_sent ≤ len(tx_buffer)` do hold; and the full invariant
`tx_buffer_seq_mod ≤ local_seq_ackd ≤ local_seq_sent ∧
offset_sent ≤ len(tx_buffer)`, once established, is preserved both by
`__process_ack_packet` (for any packet with `pkt.ack ≤ local_seq_sent`,
which every accepting handler checks) and by `send`. -/
theorem c6_invariant_amended :
    (∀ isn w m : Int,
        (mk_tcp_session isn w m).local_seq_ackd
            ≤ (mk_tcp_session isn w m).local_seq_sent ∧
        (mk_tcp_session isn w m).local_seq_sent
              - (mk_tcp_session isn w m).tx_buffer_seq_mod
            ≤ ((mk_tcp_session isn w m).tx_buffer.length : Int) ∧
        (mk_tcp_session isn w m).tx_buffer_seq_mod
            = (mk_tcp_session isn w m).local_seq_ackd + 1) ∧
    (∀ (s : TcpSession) (p : TcpPacketIn) (sa : Bool),
        seq_invariant s → p.ack ≤ s.local_seq_sent →
        seq_invariant (process_ack_packet s p sa).1) ∧
    (∀ (s : TcpSession) (d : List Nat),
        seq_invariant s → seq_invariant (session_send s d).2) := by
  refine ⟨?_, ?_, ?_⟩
  · intro isn w m
    refine ⟨?_, ?_, ?_⟩ <;> simp [mk_tcp_session]
  · intro s p sa hinv hack
    obtain ⟨i1, i2, i3⟩ := hinv
    obtain ⟨e1, e2, e3, e4⟩ := process_ack_fields s p sa
    have hoff : (0 : Int) ≤ max s.local_seq_ackd p.ack - s.tx_buffer_seq_mod := by
      omega
    have hofflen : (max s.local_seq_ackd p.ack - s.tx_buffer_seq_mod).toNat
        ≤ s.tx_buffer.length := by omega
    have hlen : ((process_ack_packet s p sa).1.tx_buffer.length : Int)
        = (s.tx_buffer.length : Int)
          - (max s.local_seq_ackd p.ack - s.tx_buffer_seq_mod) := by
      rw [e3, py_del_slice, py_slice_len_of_nonneg _ hoff, List.length_drop]
      omega
    refine ⟨?_, ?_, ?_⟩
    · rw [e4, e1]; omega
    · rw [e1, e2]; omega
    · rw [e2, e4, hlen]; omega
  · intro s d hinv
    obtain ⟨i1, i2, i3⟩ := hinv
    by_cases hst : s.state = .ESTABLISHED ∨ s.state = .CLOSE_WAIT
    · have e : (session_send s d).2 = { s with tx_buffer := s.tx_buffer ++ d } := by
        simp [session_send, hst]
      rw [e]
      refine ⟨i1, i2, ?_⟩
      show s.local_seq_sent - s.tx_buffer_seq_mod ≤ ((s.tx_buffer ++ d).length : Int)
      rw [List.length_append]
      push_cast
      omega
    · have e : (session_send s d).2 = s := by
        simp [session_send, hst]
      rw [e]
      exact ⟨i1, i2, i3⟩

/-- Witness for `c6_invariant_amended` at concrete inputs. -/
theorem c6_invariant_amended_witness :
    seq_invariant (process_ack_packet c5_sess c5_packet false).1 ∧
    seq_invariant (session_send c5_sess [1]).2 ∧
    (mk_tcp_session 7 1024 536).tx_buffer_seq_mod
        = (mk_tcp_session 7 1024 536).local_seq_ackd + 1 :=
  ⟨c6_invariant_amended.2.1 c5_sess c5_packet false (by decide) (by decide),
   c6_invariant_amended.2.2 c5_sess [1] (by decide),
   (c6_invariant_amended.1 7 1024 536).2.2⟩

/-! ## C7: stack_timer.py — StackTimerTask

The callback (`method`, `args`, `kwargs`) is opaque; `tick` therefore returns
the updated task together with a flag saying whether the callback fired.
`stop_condition` models the value of Python's
`self.stop_condition and self.stop_condition()` (absent predicates give
`False`). -/

structure StackTimerTask where
  delay : Int
  delay_exp : Bool
  repeat_count : Int
  stop_condition : Bool
  remaining_delay : Int
  delay_exp_factor : Nat
deriving DecidableEq, Repr

/-- `StackTimerTask.__init__`: `remaining_delay = delay`,
`delay_exp_factor = 0`. -/
def mk_stack_timer_task (delay : Int) (delay_exp : Bool) (repeat_count : Int)
    (stop_condition : Bool) : StackTimerTask where
  delay := delay
  delay_exp := delay_exp
  repeat_count := repeat_count
  stop_condition := stop_condition
  remaining_delay := delay
  delay_exp_factor := 0

/-- `StackTimerTask.tick`. -/
def StackTimerTask.tick (t : StackTimerTask) : StackTimerTask × Bool :=
  let r := t.remaining_delay - 1
  if t.stop_condition then
    ({ t with remaining_delay := 0 }, false)
  else if r ≠ 0 then
    ({ t with remaining_delay := r }, false)
  else if t.repeat_count ≠ 0 then
    ({ t with
        remaining_delay :=
          if t.delay_exp then t.delay * 2 ^ t.delay_exp_factor else t.delay
        delay_exp_factor := t.delay_exp_factor + 1
        repeat_count :=
          if 0 < t.repeat_count then t.repeat_count - 1 else t.repeat_count },
      true)
  else
    ({ t with remaining_delay := r }, true)

/-- The tick thread's cleanup `[_ for _ in self.tasks if _.remaining_delay]`:
a task whose `remaining_delay` is falsy (0) is dropped. -/
def reap_tasks (ts : List StackTimerTask) : List StackTimerTask :=
  ts.filter (fun u => decide (u.remaining_delay ≠ 0))

/-- C7: one tick of a timer task — the remaining delay is decremented; a
true stop condition forces it to 0 without firing (the task is then reaped);
a still-positive countdown just returns; on reaching 0 the callback fires,
and with `repeat_count ≠ 0` the task is rescheduled to
`delay << delay_exp_factor` when exponential (else `delay`),
`delay_exp_factor` is incremented and `repeat_count` decremented when
positive; a fired task with `repeat_count == 0` keeps `remaining_delay = 0`
and is reaped after the tick. -/
theorem c7_timer_task_tick (t : StackTimerTask) :
    (t.stop_condition = true →
      t.tick = ({ t with remaining_delay := 0 }, false) ∧
      reap_tasks [t.tick.1] = []) ∧
    (t.stop_condition = false → t.remaining_delay - 1 ≠ 0 →
      t.tick = ({ t with remaining_delay := t.remaining_delay - 1 }, false)) ∧
    (t.stop_condition = false → t.remaining_delay - 1 = 0 →
      t.tick.2 = true ∧
      (t.repeat_count ≠ 0 →
        t.tick.1.remaining_delay
            = (if t.delay_exp then t.delay * 2 ^ t.delay_exp_factor else t.delay) ∧
        t.tick.1.delay_exp_factor = t.delay_exp_factor + 1 ∧
        t.tick.1.repeat_count
            = (if 0 < t.repeat_count then t.repeat_count - 1 else t.repeat_count)) ∧
      (t.repeat_count = 0 →
        t.tick.1.remaining_delay = 0 ∧
        reap_tasks [t.tick.1] = [])) := by
  refine ⟨fun hs => ?_, fun hs hr => ?_, fun hs hr => ?_⟩
  · constructor
    · simp [StackTimerTask.tick, hs]
    · simp [reap_tasks, StackTimerTask.tick, hs]
  · simp [StackTimerTask.tick, hs, hr]
  · refine ⟨?_, fun hrep => ?_, fun hrep => ?_⟩
    · by_cases hrep : t.repeat_count = 0 <;>
        simp [StackTimerTask.tick, hs, hr, hrep]
    · refine ⟨?_, ?_, ?_⟩ <;> simp [StackTimerTask.tick, hs, hr, hrep]
    · constructor
      · simp [StackTimerTask.tick, hs, hr, hrep]
      · simp [reap_tasks, StackTimerTask.tick, hs, hr, hrep]

/-- Witness for `c7_timer_task_tick`: a stopped task, a mid-countdown task
and an expiring exponential task with unbounded repeat. -/
theorem c7_timer_task_tick_witness :
    (mk_stack_timer_task 5 false (-1) true).tick
        = ({ mk_stack_timer_task 5 false (-1) true with remaining_delay := 0 }, false) ∧
    (mk_stack_timer_task 5 false (-1) false).tick
        = ({ mk_stack_timer_task 5 false (-1) false with remaining_delay := 4 }, false) ∧
    ({ mk_stack_timer_task 1000 true (-1) false with
        remaining_delay := 1, delay_exp_factor := 1 }).tick.1.remaining_delay = 2000 := by
  refine ⟨?_, ?_, ?_⟩
  · exact ((c7_timer_task_tick (mk_stack_timer_task 5 false (-1) true)).1 rfl).1
  · exact (c7_timer_task_tick (mk_stack_timer_task 5 false (-1) false)).2.1 rfl (by decide)
  · have h := ((c7_timer_task_tick
      { mk_stack_timer_task 1000 true (-1) false with
          remaining_delay := 1, delay_exp_factor := 1 }).2.2 rfl (by decide)).2.1
      (by decide)
    rw [h.1]
    decide

/-! ## C8: ps_dhcp.py — the DHCP codec

Addresses hold the bytes Python's string-typed fields denote on the wire:
`dhcp_ciaddr` etc. the 4 bytes `socket.inet_aton` produces, `dhcp_chaddr`
the bytes `bytes.fromhex(mac.replace(":", ""))` produces. -/

/-- `struct.pack` big-endian `H`. -/
def be16 (n : Nat) : List Nat := [n / 256 % 256, n % 256]

/-- `struct.pack` big-endian `L`. -/
def be32 (n : Nat) : List Nat :=
  [n / 16777216 % 256, n / 65536 % 256, n / 256 % 256, n % 256]

/-- `struct.pack` format `ks`: the bytes are truncated or padded with NUL
to exactly `k`. -/
def pack_bytes (k : Nat) (l : List Nat) : List Nat :=
  (l ++ List.replicate k 0).take k

theorem pack_bytes_length (k : Nat) (l : List Nat) :
    (pack_bytes k l).length = k := by
  simp [pack_bytes]

/-- The constant at the top of ps_dhcp.py (the true BOOTP header occupies
236 bytes). -/
def DHCP_HEADER_LEN : Nat := 224

structure DhcpPacket where
  dhcp_op : Nat
  dhcp_htype : Nat
  dhcp_hlen : Nat
  dhcp_hops : Nat
  dhcp_xid : Nat
  dhcp_secs : Nat
  dhcp_flag_b : Bool
  dhcp_ciaddr : List Nat
  dhcp_yiaddr : List Nat
  dhcp_siaddr : List Nat
  dhcp_giaddr : List Nat
  dhcp_chaddr : List Nat
  dhcp_sname : List Nat
  dhcp_file : List Nat
  raw_options : List Nat
deriving DecidableEq, Repr

def dhcp_magic_cookie : List Nat := [0x63, 0x82, 0x53, 0x63]

/-- The 236 BOOTP bytes of the `raw_header` property (everything its
`struct.pack` emits before the trailing magic cookie). -/
def dhcp_bootp_fields (p : DhcpPacket) : List Nat :=
  [p.dhcp_op, p.dhcp_htype, p.dhcp_hlen, p.dhcp_hops]
    ++ be32 p.dhcp_xid
    ++ be16 p.dhcp_secs
    ++ be16 (if p.dhcp_flag_b then 32768 else 0)
    ++ pack_bytes 4 p.dhcp_ciaddr
    ++ pack_bytes 4 p.dhcp_yiaddr
    ++ pack_bytes 4 p.dhcp_siaddr
    ++ pack_bytes 4 p.dhcp_giaddr
    ++ pack_bytes 16 (p.dhcp_chaddr ++ List.replicate 16 0)
    ++ pack_bytes 64 p.dhcp_sname
    ++ pack_bytes 128 p.dhcp_file

/-- The `raw_header` property: `struct.pack` with the magic cookie as its
last `4s` field. -/
def dhcp_raw_header (p : DhcpPacket) : List Nat :=
  dhcp_bootp_fields p ++ dhcp_magic_cookie

/-- The `raw_packet` property. -/
def dhcp_raw_packet (p : DhcpPacket) : List Nat :=
  dhcp_raw_header p ++ p.raw_options

inductive PyRuntimeError
  | attributeError
deriving DecidableEq, Repr

/-- What the parsing constructor takes as options:
`raw_packet[DHCP_HEADER_LEN:]` with `DHCP_HEADER_LEN = 224`. -/
def dhcp_decode_raw_options (raw : List Nat) : List Nat :=
  raw.drop DHCP_HEADER_LEN

/-- The parsing branch of `DhcpPacket.__init__`.  It slices the header at
`DHCP_HEADER_LEN = 224` and assigns the fields in order; the assignment
`self.dhcp_chaddr = raw_header[28 : 28 + self.dhcp_hw_len]` reads the
attribute `dhcp_hw_len`, which the class never defines (the length parsed
at offset 2 is stored as `dhcp_hlen`), so every decode raises
`AttributeError` at that line. -/
def dhcp_decode (raw : List Nat) : Except PyRuntimeError DhcpPacket := do
  let raw_header := raw.take DHCP_HEADER_LEN
  let _raw_options := dhcp_decode_raw_options raw
  let _dhcp_op := raw_header.getD 0 0
  let _dhcp_htype := raw_header.getD 1 0
  let _dhcp_hlen := raw_header.getD 2 0
  let _dhcp_hops := raw_header.getD 3 0
  let _dhcp_xid := ((raw_header.getD 4 0 * 256 + raw_header.getD 5 0) * 256
      + raw_header.getD 6 0) * 256 + raw_header.getD 7 0
  let _dhcp_secs := raw_header.getD 8 0 * 256 + raw_header.getD 9 0
  let _dhcp_flag_b := decide (32768 ≤ raw_header.getD 10 0 * 256 + raw_header.getD 11 0)
  let _dhcp_ciaddr := ((raw_header.drop 12).take 4 : List Nat)
  let _dhcp_yiaddr := ((raw_header.drop 16).take 4 : List Nat)
  let _dhcp_siaddr := ((raw_header.drop 20).take 4 : List Nat)
  let _dhcp_giaddr := ((raw_header.drop 24).take 4 : List Nat)
  throw PyRuntimeError.attributeError

/-- A packet built by the building branch of `DhcpPacket.__init__`
(defaults, `xid = 0x11223344`, `chaddr = 01:02:03:04:05:06`, a
message-type option followed by `OPT_END`). -/
def c8_packet : DhcpPacket where
  dhcp_op := 1
  dhcp_htype := 1
  dhcp_hlen := 6
  dhcp_hops := 0
  dhcp_xid := 0x11223344
  dhcp_secs := 0
  dhcp_flag_b := false
  dhcp_ciaddr := [0, 0, 0, 0]
  dhcp_yiaddr := [0, 0, 0, 0]
  dhcp_siaddr := [0, 0, 0, 0]
  dhcp_giaddr := [0, 0, 0, 0]
  dhcp_chaddr := [1, 2, 3, 4, 5, 6]
  dhcp_sname := List.replicate 64 0
  dhcp_file := List.replicate 128 0
  raw_options := [53, 1, 1, 255]

/-- C8: the encoder does produce a 236-byte BOOTP header followed by the
magic cookie `63 82 53 63` and the options; but decode(encode(pkt)) never
returns a packet: parsing always raises `AttributeError` at the
`dhcp_hw_len` line, and moreover the decoder's header/options split at
`DHCP_HEADER_LEN = 224` lands 12 bytes inside the `file` field, so the
options it would parse are not the encoded options. -/
theorem c8_dhcp_codec :
    (∀ p : DhcpPacket,
        dhcp_raw_packet p
          = dhcp_bootp_fields p ++ dhcp_magic_cookie ++ p.raw_options ∧
        (dhcp_bootp_fields p).length = 236) ∧
    dhcp_decode (dhcp_raw_packet c8_packet)
        = Except.error PyRuntimeError.attributeError ∧
    dhcp_decode_raw_options (dhcp_raw_packet c8_packet) ≠ c8_packet.raw_options := by
  refine ⟨fun p => ⟨?_, ?_⟩, rfl, by decide⟩
  · simp [dhcp_raw_packet, dhcp_raw_header]
  · simp [dhcp_bootp_fields, be16, be32, pack_bytes_length]

/-! ## C9: phrx_arp.py and the address-claim procedure of ph.py -/

def broadcast_mac : String := "ff:ff:ff:ff:ff:ff"
def zero_mac : String := "00:00:00:00:00:00"
def zero_ip : String := "0.0.0.0"

/-- Modelled from the spec: ps_arp.py is not among the sources; §6 says
"ARP: as RFC 826", whose opcodes are request = 1, reply = 2.  Only their
distinctness matters below. -/
def ARP_OP_REQUEST : Nat := 1
def ARP_OP_REPLY : Nat := 2

def ARP_CACHE_UPDATE_FROM_DIRECT_REQUEST : Bool := true
def ARP_CACHE_UPDATE_FROM_GRATUITOUS_REPLY : Bool := true

structure ArpPacketIn where
  arp_oper : Nat
  arp_sha : String
  arp_spa : String
  arp_tha : String
  arp_tpa : String
deriving DecidableEq, Repr

structure ArpPacketOut where
  ether_src : String
  ether_dst : String
  arp_oper : Nat
  arp_sha : String
  arp_spa : String
  arp_tha : String
  arp_tpa : String
deriving DecidableEq, Repr

/-- The PacketHandler attributes phrx_arp touches.  `arp_cache_adds` logs
`arp_cache.add_entry(ip, mac)` calls (newest first), `arp_out` logs
`phtx_arp` emissions. -/
structure PacketHandlerState where
  stack_mac_address : String
  stack_ip_address : String
  arp_probe_conflict_detected : Bool
  ip_address_claimed : Bool
  arp_cache_adds : List (String × String)
  arp_out : List ArpPacketOut
deriving DecidableEq, Repr

/-- `phrx_arp(self, ether_packet_rx, arp_packet_rx)`; of the Ethernet frame
only `ether_dst` is read. -/
def phrx_arp (h : PacketHandlerState) (ether_dst : String) (p : ArpPacketIn) :
    PacketHandlerState :=
  if p.arp_oper = ARP_OP_REQUEST then
    -- Request for our IP -> send reply, optionally learn the mapping
    if p.arp_tpa = h.stack_ip_address then
      let reply : ArpPacketOut :=
        { ether_src := h.stack_mac_address
          ether_dst := p.arp_sha
          arp_oper := ARP_OP_REPLY
          arp_sha := h.stack_mac_address
          arp_spa := h.stack_ip_address
          arp_tha := p.arp_sha
          arp_tpa := p.arp_spa }
      let h1 := { h with arp_out := reply :: h.arp_out }
      if ARP_CACHE_UPDATE_FROM_DIRECT_REQUEST = true then
        { h1 with arp_cache_adds := (p.arp_spa, p.arp_sha) :: h1.arp_cache_adds }
      else h1
    else h
  else if p.arp_oper = ARP_OP_REPLY then
    -- Reply answering our ARP probe -> record the address conflict
    if ether_dst = h.stack_mac_address ∧ p.arp_spa = h.stack_ip_address ∧
        p.arp_tha = h.stack_mac_address ∧ p.arp_tpa = zero_ip then
      { h with arp_probe_conflict_detected := true }
    -- Direct reply -> learn the mapping
    else if ether_dst = h.stack_mac_address then
      { h with arp_cache_adds := (p.arp_spa, p.arp_sha) :: h.arp_cache_adds }
    -- Gratuitous reply -> learn the mapping
    else if ether_dst = broadcast_mac ∧ p.arp_spa = p.arp_tpa ∧
        ARP_CACHE_UPDATE_FROM_GRATUITOUS_REPLY = true then
      { h with arp_cache_adds := (p.arp_spa, p.arp_sha) :: h.arp_cache_adds }
    else h
  else h

/-- The probe loop of `PacketHandler.__init__`: for each of the three
probes, after the 1 s sleep the conflict flag is consulted; a set flag
aborts the claim.  The input lists the flag values observed after each
probe; the result is (announcement emitted, `ip_address_claimed`). -/
def probe_claim_run : List Bool → Bool × Bool
  | [] => (true, true)
  | b :: rest => if b then (false, false) else probe_claim_run rest

def c9_mac : String := "02:00:00:77:77:77"
def c9_ip : String := "192.168.9.7"
def c9_peer_mac : String := "02:00:00:99:99:99"

/-- A handler still probing (nothing claimed yet). -/
def c9_handler : PacketHandlerState where
  stack_mac_address := c9_mac
  stack_ip_address := c9_ip
  arp_probe_conflict_detected := false
  ip_address_claimed := false
  arp_cache_adds := []
  arp_out := []

/-- An ARP reply matching all three ARP-field conditions of the claim. -/
def c9_reply : ArpPacketIn where
  arp_oper := ARP_OP_REPLY
  arp_sha := c9_peer_mac
  arp_spa := c9_ip
  arp_tha := c9_mac
  arp_tpa := zero_ip

/-- C9 counterexample: an ARP reply with `arp_tha = stack_mac`,
`arp_spa = stack_ip`, `arp_tpa = 0.0.0.0` whose Ethernet destination is the
broadcast address does NOT set the conflict flag — the handler additionally
requires `ether_dst == stack_mac` — in fact it changes nothing at all. -/
theorem c9_conflict_requires_unicast_dst :
    c9_reply.arp_oper = ARP_OP_REPLY ∧
    c9_reply.arp_tha = c9_handler.stack_mac_address ∧
    c9_reply.arp_spa = c9_handler.stack_ip_address ∧
    c9_reply.arp_tpa = zero_ip ∧
    (phrx_arp c9_handler broadcast_mac c9_reply).arp_probe_conflict_detected
        = false ∧
    phrx_arp c9_handler broadcast_mac c9_reply = c9_handler := by
  refine ⟨rfl, rfl, rfl, rfl, ?_, ?_⟩ <;> decide

/-- C9 (amended): an ARP reply delivered in an Ethernet frame addressed to
the stack MAC, with `arp_tha = stack_mac`, `arp_spa = stack_ip` and
`arp_tpa = 0.0.0.0`, sets the conflict flag (leaving `ip_address_claimed`
untouched); and whenever the probe loop observes the conflict flag after
one of its three probes it aborts: no ARP announcement is emitted and
`ip_address_claimed` stays false. -/
theorem c9_probe_conflict_contract :
    (∀ (h : PacketHandlerState) (ether_dst : String) (p : ArpPacketIn),
        p.arp_oper = ARP_OP_REPLY →
        ether_dst = h.stack_mac_address →
        p.arp_spa = h.stack_ip_address →
        p.arp_tha = h.stack_mac_address →
        p.arp_tpa = zero_ip →
        (phrx_arp h ether_dst p).arp_probe_conflict_detected = true ∧
        (phrx_arp h ether_dst p).ip_address_claimed = h.ip_address_claimed) ∧
    (∀ a b c : Bool, (a || b || c) = true →
        probe_claim_run [a, b, c] = (false, false)) := by
  constructor
  · intro h ether_dst p hoper hdst hspa htha htpa
    have hreq : ¬(p.arp_oper = ARP_OP_REQUEST) := by
      rw [hoper]; decide
    rw [phrx_arp, if_neg hreq, if_pos hoper, if_pos ⟨hdst, hspa, htha, htpa⟩]
    exact ⟨rfl, rfl⟩
  · intro a b c h
    cases a <;> cases b <;> cases c <;> simp_all [probe_claim_run]

/-- Witness for `c9_probe_conflict_contract` at concrete inputs. -/
theorem c9_probe_conflict_contract_witness :
    (phrx_arp c9_handler c9_mac c9_reply).arp_probe_conflict_detected = true ∧
    (phrx_arp c9_handler c9_mac c9_reply).ip_address_claimed
        = c9_handler.ip_address_claimed ∧
    probe_claim_run [false, true, false] = (false, false) :=
  ⟨(c9_probe_conflict_contract.1 c9_handler c9_mac c9_reply rfl rfl rfl rfl rfl).1,
   (c9_probe_conflict_contract.1 c9_handler c9_mac c9_reply rfl rfl rfl rfl rfl).2,
   c9_probe_conflict_contract.2 false true false rfl⟩

end PyTcp
